import Mathlib

/-!
Verification development for the constrained generation pipeline of the
claude-wrapped repository (file `ai.js`).  The JavaScript source is embedded
shallowly: strings are Lean `String`s (lists of characters; JS `toLowerCase`
is modelled ASCII-accurately by `Char.toLower`), optional-chaining is
`Option`, JS string truthiness (`x || d`) is an explicit test against the
empty string, and thrown exceptions are `Except`/`Option` values.  All
definitions are executable and structurally recursive so that concrete
inputs evaluate inside the kernel.
-/

namespace ClaudeWrapped

/-! ### JS string primitives -/

/-- The character class `\s` of JS regexes, which is also the set trimmed by
`String.prototype.trim`. -/
def jsIsSpace (c : Char) : Bool :=
  c.toNat == 9 || c.toNat == 10 || c.toNat == 11 || c.toNat == 12 || c.toNat == 13 ||
  c.toNat == 32 || c.toNat == 160 || c.toNat == 5760 ||
  (decide (8192 ≤ c.toNat) && decide (c.toNat ≤ 8202)) ||
  c.toNat == 8232 || c.toNat == 8233 || c.toNat == 8239 || c.toNat == 8287 ||
  c.toNat == 12288 || c.toNat == 65279

/-- The character class `\d` of JS regexes. -/
def jsIsDigit (c : Char) : Bool :=
  decide (48 ≤ c.toNat) && decide (c.toNat ≤ 57)

/-- Line terminators, which `.` in a JS regex does not match. -/
def isLineTerm (c : Char) : Bool :=
  c.toNat == 10 || c.toNat == 13 || c.toNat == 8232 || c.toNat == 8233

/-- `String.prototype.toLowerCase`, ASCII-accurate. -/
def jsToLower (s : String) : String := String.mk (s.data.map Char.toLower)

/-- `String.prototype.trim`. -/
def jsTrim (s : String) : String :=
  String.mk (((s.data.dropWhile jsIsSpace).reverse.dropWhile jsIsSpace).reverse)

/-- Worker for `jsSplitWS`; the flag records whether we are inside a
whitespace run (a run acts as one separator). -/
def splitWSAux : List Char → List Char → Bool → List (List Char)
  | [], cur, _ => [cur.reverse]
  | c :: rest, cur, inRun =>
    if jsIsSpace c then
      if inRun then splitWSAux rest cur true
      else cur.reverse :: splitWSAux rest [] true
    else splitWSAux rest (c :: cur) false

/-- `str.split(/\s+/)`: maximal whitespace runs separate the tokens; a leading
or trailing run contributes an empty token, and the empty string yields
`[""]`, exactly as in JS. -/
def jsSplitWS (s : String) : List String :=
  (splitWSAux s.data [] false).map String.mk

/-- Worker for `jsSplitNl`. -/
def splitNlAux : List Char → List Char → List String
  | [], acc => [String.mk acc.reverse]
  | c :: rest, acc =>
    if c == '\n' then String.mk acc.reverse :: splitNlAux rest []
    else splitNlAux rest (c :: acc)

/-- `str.split('\n')`. -/
def jsSplitNl (s : String) : List String := splitNlAux s.data []

/-- `str.startsWith(pat)` / an anchored `^pat` regex test. -/
def strStarts (s pat : String) : Bool := pat.data.isPrefixOf s.data

/-- Contiguous-sublist test: does `pat` occur inside the second list? -/
def listInfix (pat : List Char) : List Char → Bool
  | [] => pat.isEmpty
  | c :: rest => pat.isPrefixOf (c :: rest) || listInfix pat rest

/-- Case-sensitive substring test. -/
def containsStr (s pat : String) : Bool := listInfix pat.data s.data

/-- Case-insensitive substring test (`/pat/i.test(s)` for a literal pattern,
given here in lowercase). -/
def containsCI (s pat : String) : Bool := listInfix pat.data (jsToLower s).data

/-- JS `a || b` for strings: the empty string is falsy. -/
def jsOrStr (a b : String) : String := if a = "" then b else a

/-- `X || d` where `X` is an optional-chained string (`undefined` and `""`
both fall through to the default). -/
def optStr : Option String → String → String
  | some s, d => jsOrStr s d
  | none, d => d

/-- `s.charAt(0).toUpperCase() + s.slice(1)`. -/
def capFirst (s : String) : String :=
  match s.data with
  | [] => ""
  | c :: rest => String.mk (c.toUpper :: rest)

/-- `ws[i]` with the out-of-range access modelled by `""` (never exercised at
in-range indices). -/
def nthWord (ws : List String) (i : Nat) : String := ws.getD i ""

/-! ### Run detectors (regex back-reference patterns) -/

/-- Worker for `hasDigitRun`. -/
def digitRunAux (k : Nat) : List Char → Bool
  | [] => false
  | c :: rest =>
    decide (k ≤ ((c :: rest).takeWhile jsIsDigit).length) || digitRunAux k rest

/-- `\d{k,}`: `k` or more consecutive digits somewhere in the string. -/
def hasDigitRun (k : Nat) (s : String) : Bool := digitRunAux k s.data

/-- Worker for `hasDotRun`. -/
def dotRunAux (k : Nat) : List Char → Bool
  | [] => false
  | c :: rest =>
    (!isLineTerm c && decide (k ≤ ((c :: rest).takeWhile (fun x => x == c)).length)) ||
      dotRunAux k rest

/-- `(.)\1{k-1,}`: a run of `k` or more copies of one character (the leading
character is matched by `.`, hence not a line terminator). -/
def hasDotRun (k : Nat) (s : String) : Bool := dotRunAux k s.data

/-! ### Data model: the Profile record consumed from the extraction stage -/

structure Stats where
  messages_sent : Nat
deriving Repr, DecidableEq

structure Archetype where
  name : String
deriving Repr, DecidableEq

structure Theme where
  title : String
deriving Repr, DecidableEq

structure Unigram where
  phrase : String
deriving Repr, DecidableEq

structure PhraseData where
  unigrams : Option (List Unigram)
deriving Repr, DecidableEq

structure Profile where
  stats : Option Stats
  archetype : Option Archetype
  themes : Option (List Theme)
  phrases : Option PhraseData
deriving Repr, DecidableEq

/-- A Profile with every field absent (`{}` in JS). -/
def emptyProfile : Profile := ⟨none, none, none, none⟩

/-- `themes?.[i]?.title`. -/
def themeTitle (w : Profile) (i : Nat) : Option String :=
  (w.themes.bind fun ts => ts.get? i).map fun t => t.title

/-- `archetype?.name`. -/
def archetypeName (w : Profile) : Option String :=
  w.archetype.map fun a => a.name

/-- `phrases?.unigrams?.[i]?.phrase`. -/
def unigramPhrase (w : Profile) (i : Nat) : Option String :=
  ((w.phrases.bind fun p => p.unigrams).bind fun us => us.get? i).map fun u => u.phrase

/-! ### Backend Handle: `loadModel`

The module-level variables `generator`, `modelLoading`, `modelReady` form the
process-wide state.  A call is modelled as a function of the entry state and
of the outcome of the `pipeline(...)` initialization (success with a handle,
or a thrown load error); callers are sequential, so the transient
`modelLoading = true` window inside one call is summarized by its net effect.
The `while (modelLoading)` wait branch returns the current `generator`
whatever it is, as in the source. -/

structure BackendState where
  generator : Option Nat
  modelLoading : Bool
  modelReady : Bool
deriving Repr, DecidableEq

inductive LoadOutcome where
  | success (h : Nat)
  | failure
deriving Repr, DecidableEq

/-- One sequential call to `loadModel`.  Returns what the call returns
(`.error` models the re-thrown load failure) together with the state of the
module variables after the call. -/
def loadModel (st : BackendState) (o : LoadOutcome) : Except Unit (Option Nat) × BackendState :=
  if st.modelReady && st.generator.isSome then
    (.ok st.generator, st)
  else if st.modelLoading then
    (.ok st.generator, st)
  else
    match o with
    | .success h => (.ok (some h), ⟨some h, false, true⟩)
    | .failure => (.error (), { st with modelLoading := false })

/-! ### Output Normalizer (the tail of `generate`)

`output[0]?.generated_text` can be a plain string, a role-tagged message
list, a single object with a `content` field, or `null`/`undefined` (both
collapsed into `rnull`). -/

structure Entry where
  role : String
  content : String
deriving Repr, DecidableEq

inductive RawResult where
  | rnull
  | rstr (s : String)
  | robj (content : String)
  | rlist (entries : List Entry)
deriving Repr, DecidableEq

/-- Lines selecting the final string from the raw `generated_text` value:
the `Array.isArray` branch (`find(m => m.role === 'assistant')`, with the JS
`||` chain on contents), the `result.content` truthiness branch, and the
final `String(result || '')` coercion.  An object whose `content` is falsy is
not unwrapped and is coerced to `"[object Object]"`. -/
def normalizeResult : RawResult → String
  | .rnull => ""
  | .rstr s => jsOrStr s ""
  | .robj c => if c == "" then "[object Object]" else jsOrStr c ""
  | .rlist es =>
    let fromAssistant : Option String :=
      (es.find? fun e => e.role == "assistant").map fun e => e.content
    let fromLast : Option String := es.getLast?.map fun e => e.content
    jsOrStr (jsOrStr (fromAssistant.getD "") (jsOrStr (fromLast.getD "") "")) ""

/-! ### Quality Validator: word-repetition filter -/

/-- Keys of the plain-object counter `wordCounts = {}` that collide with
(all-lowercase) `Object.prototype` properties.  Reading such a key yields an
inherited truthy non-number, so `(wordCounts[word] || 0) + 1` concatenates a
string and the `>= 3` comparison is always false: these tokens can never
trigger the repetition rule. -/
def protoKey (w : String) : Bool := w == "constructor" || w == "__proto__"

/-- The repeated-word rule: some counted token of length at least 3 reaches a
count of 3. -/
def countTrigger (ws : List String) : Bool :=
  ws.any fun w => decide (3 ≤ w.length) && !protoKey w && decide (3 ≤ ws.count w)

/-- The repeated-bigram rule: for some `i < words.length - 3` the two-token
windows at `i` and `i + 2` render to the same `a ++ " " ++ b` string. -/
def bigramTrigger (ws : List String) : Bool :=
  (List.range (ws.length - 3)).any fun i =>
    (nthWord ws i ++ " " ++ nthWord ws (i + 1)) ==
      (nthWord ws (i + 2) ++ " " ++ nthWord ws (i + 3))

/-- `hasWordRepetition`: lowercase, split on whitespace, return `false` for
fewer than 4 tokens, otherwise test the two rules. -/
def hasWordRepetition (text : String) : Bool :=
  let words := jsSplitWS (jsToLower text)
  if words.length < 4 then false
  else countTrigger words || bigramTrigger words

/-! ### Quality Validator: prediction checks -/

def youllPat : List Char := "you'll be a ".data

/-- Scanner for `/you'll be a \d/i` on an already-lowercased character
list. -/
def youllAux : List Char → Bool
  | [] => false
  | c :: rest =>
    (youllPat.isPrefixOf (c :: rest) &&
      match (c :: rest).drop youllPat.length with
      | d :: _ => jsIsDigit d
      | [] => false) || youllAux rest

/-- `/you'll be a \d/i.test(c)`. -/
def youllBeADigit (c : String) : Bool := youllAux (jsToLower c).data

/-- `/\d{3,}|level up|you will be|you'll be a \d/i.test(c)`. -/
def bannedPhrase (c : String) : Bool :=
  hasDigitRun 3 c || containsCI c "level up" || containsCI c "you will be" ||
    youllBeADigit c

/-- `/^(I |I'm |I'll |I've |Here|Please|Sure|Let me)/i.test(c)`. -/
def predMetaStart (c : String) : Bool :=
  let t := jsToLower c
  strStarts t "i " || strStarts t "i'm " || strStarts t "i'll " || strStarts t "i've " ||
  strStarts t "here" || strStarts t "please" || strStarts t "sure" || strStarts t "let me"

/-- `/\?|!{2,}/.test(c)`. -/
def predPunct (c : String) : Bool :=
  c.data.any (fun ch => ch == '?') || containsStr c "!!"

/-- `/help|assist|provide|question/i.test(c)`. -/
def predAssistWords (c : String) : Bool :=
  containsCI c "help" || containsCI c "assist" || containsCI c "provide" ||
    containsCI c "question"

/-- The conjunction `isValid` applied to a prediction completion. -/
def isValidPred (c : String) : Bool :=
  let words := jsSplitWS c
  decide (5 ≤ c.length) && decide (c.length ≤ 80) &&
  decide (3 ≤ words.length) && decide (words.length ≤ 20) &&
  !bannedPhrase c &&
  !hasDotRun 5 c &&
  !hasWordRepetition c &&
  !predMetaStart c &&
  !predPunct c &&
  !predAssistWords c

/-- Extraction of the completion from a raw response:
`response.trim().split('\n')[0].trim()`, then `replace(/^→\s*/, '')` and a
final `trim()`. -/
def stripArrow (s : String) : String :=
  match s.data with
  | c :: rest => if c == '→' then String.mk (rest.dropWhile jsIsSpace) else s
  | [] => s

def predCompletion (response : String) : String :=
  let firstLine := jsTrim ((jsSplitNl (jsTrim response)).getD 0 "")
  jsTrim (stripArrow firstLine)

/-! ### Quality Validator: poem checks -/

/-- The prefix-stripping `replace(/^(\d+[\.\):]?\s*|Line\s*\d+:?\s*)/i, '')`:
digits with an optional `.`/`)`/`:` and trailing whitespace, or a
case-insensitive `Line`, whitespace, digits, optional `:`, whitespace. -/
def stripLineNum (s : String) : String :=
  match s.data with
  | [] => s
  | c :: _ =>
    if jsIsDigit c then
      let r1 := s.data.dropWhile jsIsDigit
      let r2 := match r1 with
        | p :: t => if p == '.' || p == ')' || p == ':' then t else r1
        | [] => ([] : List Char)
      String.mk (r2.dropWhile jsIsSpace)
    else
      match s.data with
      | c1 :: c2 :: c3 :: c4 :: rest =>
        if c1.toLower == 'l' && c2.toLower == 'i' && c3.toLower == 'n' && c4.toLower == 'e' then
          let r1 := rest.dropWhile jsIsSpace
          match r1 with
          | d :: _ =>
            if jsIsDigit d then
              let r2 := r1.dropWhile jsIsDigit
              let r3 := match r2 with
                | q :: t2 => if q == ':' then t2 else r2
                | [] => ([] : List Char)
              String.mk (r3.dropWhile jsIsSpace)
            else s
          | [] => s
        else s
      | _ => s

/-- `/^(example|haiku|write|now|here|sure|i |i'm|okay|let)/i.test(l)`. -/
def poemMetaStart (l : String) : Bool :=
  let t := jsToLower l
  strStarts t "example" || strStarts t "haiku" || strStarts t "write" ||
  strStarts t "now" || strStarts t "here" || strStarts t "sure" ||
  strStarts t "i " || strStarts t "i'm" || strStarts t "okay" || strStarts t "let"

/-- `/[\[\]<>{}|\\]|:$/.test(l)`. -/
def poemSpecialChars (l : String) : Bool :=
  l.data.any (fun c =>
    c == '[' || c == ']' || c == '<' || c == '>' || c == '\x7b' || c == '\x7d' ||
    c == '|' || c == '\\') ||
  (match l.data.getLast? with
   | some c => c == ':'
   | none => false)

/-- The per-line keep condition of the `filter` callback. -/
def poemLineKeep (l : String) : Bool :=
  !(decide (l.length < 4) || decide (l.length > 50)) &&
  !poemMetaStart l &&
  !poemSpecialChars l

/-- `/R\.I\.|Refract|Cléau|SmolLM|https?:/i.test(l) || /(.)\1{3,}/.test(l)`. -/
def poemGibberish (l : String) : Bool :=
  containsCI l "r.i." || containsCI l "refract" || containsCI l "cléau" ||
  containsCI l "smollm" || containsCI l "http:" || containsCI l "https:" ||
  hasDotRun 4 l

/-- `l.split(/\s+/).length` between 2 and 8. -/
def poemWordCountOk (l : String) : Bool :=
  let wc := (jsSplitWS l).length
  decide (2 ≤ wc) && decide (wc ≤ 8)

/-- `lines.slice(0, 3).join('\n')`. -/
def joinLines : List String → String
  | [] => ""
  | [l] => l
  | l :: rest => l ++ "\n" ++ joinLines rest

/-- One poem attempt applied to the raw response: clean the lines, filter,
validate, and either return the first three lines joined or reject. -/
def processPoemAttempt (response : String) : Option String :=
  let lines :=
    (((jsSplitNl (jsTrim response)).map jsTrim).map stripLineNum).filter poemLineKeep
  let hasGibberish := lines.any poemGibberish
  let validLineLengths := lines.all poemWordCountOk
  if decide (3 ≤ lines.length) && !hasGibberish && validLineLengths then
    some (joinLines (lines.take 3))
  else
    none

/-! ### Fallback Synthesizer -/

/-- `archetype?.name?.toLowerCase() || 'seeker'`. -/
def fbPoemStyle (w : Profile) : String := optStr ((archetypeName w).map jsToLower) "seeker"

/-- `themes?.[0]?.title?.toLowerCase() || 'ideas'`. -/
def fbPoemTheme (w : Profile) : String := optStr ((themeTitle w 0).map jsToLower) "ideas"

/-- `phrases?.unigrams?.[0]?.phrase || 'wonder'`. -/
def fbPoemWord (w : Profile) : String := optStr (unigramPhrase w 0) "wonder"

/-- `getFallbackPoem`. -/
def getFallbackPoem (w : Profile) : String :=
  capFirst (fbPoemStyle w) ++ " of " ++ fbPoemTheme w ++ "\n" ++
    capFirst (fbPoemWord w) ++ " guides the path forward\nClaude lights the way"

/-- `getFallbackPredictions`. -/
def getFallbackPredictions (w : Profile) : List String :=
  let topTheme := optStr (themeTitle w 0) "exploring ideas"
  let secondTheme := optStr (themeTitle w 1) "creative projects"
  let style := optStr (archetypeName w) "Ranger"
  let msgCount := match w.stats with
    | some st => st.messages_sent
    | none => 0
  let topWord := optStr (unigramPhrase w 0) "curiosity"
  ["Your " ++ topTheme ++ " obsession will reach new heights in 2026",
   "As a true " ++ style ++ ", you'll discover at least 3 new AI use cases",
   "Your message count will double - " ++ toString (msgCount * 2) ++ "+ messages incoming",
   "\"" ++ topWord ++ "\" will become your catchphrase in " ++ secondTheme ++ " discussions"]

/-! ### Retry Controller

A backend is a function from the attempt number (1-based, as in the source
loops) to the outcome of one `generate` call: `some response`, or `none` when
the call throws.  `MAX_RETRIES = 5` in both loops. -/

def retryAttemptNums : List Nat := [1, 2, 3, 4, 5]

/-- The poem retry loop (`generatePoem`, lines of the `for` loop).  The
`generate` call is *not* wrapped in try/catch there, so a thrown call aborts
the whole function: modelled by `.error`.  The returned number counts the
`generate` calls performed. -/
def poemLoop (w : Profile) (b : Nat → Option String) :
    List Nat → Nat → Except Unit (String × Nat)
  | [], used => .ok (getFallbackPoem w, used)
  | a :: rest, used =>
    match b a with
    | none => .error ()
    | some resp =>
      match processPoemAttempt resp with
      | some haiku => .ok (haiku, used + 1)
      | none => poemLoop w b rest (used + 1)

/-- `generatePoem`: `await loadModel(onProgress)` is unguarded, so an
initialization failure propagates; then the retry loop runs and exhaustion
returns `getFallbackPoem`. -/
def generatePoemRun (w : Profile) (load : Except Unit Unit) (b : Nat → Option String) :
    Except Unit (String × Nat) :=
  match load with
  | .error _ => .error ()
  | .ok _ => poemLoop w b retryAttemptNums 0

/-- The `prompts` array of `generatePredictions`: `(start, fallback)` per
unit, with that function's own defaults. -/
def predUnits (w : Profile) : List (String × String) :=
  let topTheme := optStr (themeTitle w 0) "learning"
  let secondTheme := optStr (themeTitle w 1) "creating"
  let style := optStr (archetypeName w) "Explorer"
  let topWord := optStr (unigramPhrase w 0) "ideas"
  [("In 2026, your " ++ topTheme ++ " skills will",
    "Your " ++ topTheme ++ " obsession will reach new heights"),
   ("As a " ++ style ++ ", you'll discover",
    "As a true " ++ style ++ ", you'll discover 3 new use cases"),
   ("Your favorite word \"" ++ topWord ++ "\" will",
    "\"" ++ topWord ++ "\" will become your catchphrase"),
   ("Next year in " ++ secondTheme ++ ", you'll",
    "Your " ++ secondTheme ++ " journey will surprise you")]

/-- One prediction attempt: `none` models both a thrown `generate` call
(caught by the try/catch) and a completion that fails validation; on success
the pushed string is `start + ' ' + completion`. -/
def predAttempt (start : String) (r : Option String) : Option String :=
  match r with
  | none => none
  | some resp =>
    let completion := predCompletion resp
    if isValidPred completion then some (start ++ " " ++ completion) else none

/-- Whether an attempt outcome fails (a throw or an invalid completion). -/
def predAttemptFails (r : Option String) : Bool :=
  match r with
  | none => true
  | some s => !isValidPred (predCompletion s)

/-- The per-unit retry loop of `generatePredictions` with its attempt
counter; exhaustion yields the unit's inline fallback. -/
def predLoop (start fb : String) (b : Nat → Option String) :
    List Nat → Nat → String × Nat
  | [], used => (fb, used)
  | a :: rest, used =>
    match predAttempt start (b a) with
    | some out => (out, used + 1)
    | none => predLoop start fb b rest (used + 1)

/-- One generation unit: up to 5 attempts, then the inline fallback. -/
def runPredUnit (start fb : String) (b : Nat → Option String) : String × Nat :=
  predLoop start fb b retryAttemptNums 0

/-- Sequential processing of the units (`for (const {start, fallback} of
prompts)`), unit `i` drawing attempts from `b i`. -/
def predRunAll : List (String × String) → (Nat → Nat → Option String) → Nat → List String
  | [], _, _ => []
  | u :: rest, b, i => (runPredUnit u.1 u.2 (b i)).1 :: predRunAll rest b (i + 1)

/-- `generatePredictions`: the initial `await loadModel(onProgress)` is
unguarded and propagates an initialization failure; afterwards every unit
resolves to validated text or its inline fallback. -/
def generatePredictionsRun (w : Profile) (load : Except Unit Unit)
    (b : Nat → Nat → Option String) : Except Unit (List String) :=
  match load with
  | .error _ => .error ()
  | .ok _ => .ok (predRunAll (predUnits w) b 0)

/-! ### Helper lemmas -/

lemma retry_bounds {k : Nat} (hk : k ∈ retryAttemptNums) : 1 ≤ k ∧ k ≤ 5 := by
  simp [retryAttemptNums] at hk
  rcases hk with h | h | h | h | h <;> omega

lemma predAttempt_eq_none (start : String) (r : Option String)
    (h : predAttemptFails r = true) : predAttempt start r = none := by
  cases r with
  | none => rfl
  | some s =>
    simp [predAttemptFails] at h
    simp [predAttempt, h]

lemma predLoop_exhaust (b : Nat → Option String) :
    ∀ (ks : List Nat) (used : Nat) (start fb : String),
      (∀ k ∈ ks, predAttemptFails (b k) = true) →
      predLoop start fb b ks used = (fb, used + ks.length) := by
  intro ks
  induction ks with
  | nil => intro used start fb _; simp [predLoop]
  | cons a rest ih =>
    intro used start fb h
    have ha := predAttempt_eq_none start (b a) (h a (by simp))
    have hrest := ih (used + 1) start fb (fun k hk => h k (by simp [hk]))
    simp [predLoop, ha, hrest]
    omega

lemma runPredUnit_exhaust (b : Nat → Option String) (start fb : String)
    (h : ∀ k ∈ retryAttemptNums, predAttemptFails (b k) = true) :
    runPredUnit start fb b = (fb, 5) := by
  simpa [runPredUnit, retryAttemptNums] using
    predLoop_exhaust b retryAttemptNums 0 start fb h

lemma predRunAll_exhaust (b : Nat → Nat → Option String)
    (h : ∀ j k, k ∈ retryAttemptNums → predAttemptFails (b j k) = true) :
    ∀ (us : List (String × String)) (i : Nat),
      predRunAll us b i = us.map Prod.snd := by
  intro us
  induction us with
  | nil => intro i; simp [predRunAll]
  | cons u rest ih =>
    intro i
    have hu := runPredUnit_exhaust (b i) u.1 u.2 (fun k hk => h i k hk)
    simp [predRunAll, hu, ih (i + 1)]

lemma predRunAll_length (b : Nat → Nat → Option String) :
    ∀ (us : List (String × String)) (i : Nat), (predRunAll us b i).length = us.length := by
  intro us
  induction us with
  | nil => intro i; simp [predRunAll]
  | cons u rest ih => intro i; simp [predRunAll, ih (i + 1)]

lemma poemLoop_exhaust (w : Profile) (b : Nat → Option String) :
    ∀ (ks : List Nat) (used : Nat),
      (∀ k ∈ ks, ∃ s, b k = some s ∧ processPoemAttempt s = none) →
      poemLoop w b ks used = .ok (getFallbackPoem w, used + ks.length) := by
  intro ks
  induction ks with
  | nil => intro used _; simp [poemLoop]
  | cons a rest ih =>
    intro used h
    obtain ⟨s, hb, hv⟩ := h a (by simp)
    have hrest := ih (used + 1) (fun k hk => h k (by simp [hk]))
    simp [poemLoop, hb, hv, hrest]
    omega

lemma poemLoop_no_throw (w : Profile) (b : Nat → Option String) :
    ∀ (ks : List Nat) (used : Nat),
      (∀ k ∈ ks, b k ≠ none) →
      ∃ r, poemLoop w b ks used = .ok r := by
  intro ks
  induction ks with
  | nil => intro used _; exact ⟨_, rfl⟩
  | cons a rest ih =>
    intro used h
    cases hb : b a with
    | none => exact absurd hb (h a (by simp))
    | some resp =>
      cases hp : processPoemAttempt resp with
      | some haiku => exact ⟨(haiku, used + 1), by simp [poemLoop, hb, hp]⟩
      | none =>
        obtain ⟨r, hr⟩ := ih (used + 1) (fun k hk => h k (by simp [hk]))
        exact ⟨r, by simp [poemLoop, hb, hp, hr]⟩

lemma capFirst_length (s : String) : (capFirst s).length = s.length := by
  cases s with
  | mk l => cases l <;> simp [capFirst, String.length]

/-! ### Claims -/

/-- C1 (corrected): `generatePredictions` is total once `loadModel` has
succeeded — every retry-loop failure resolves to text and exactly 4 strings
are returned — and `generatePoem` is total once `loadModel` has succeeded
provided no `generate` call throws; but the initial `loadModel` call is
unguarded in both functions, so an initialization failure propagates to the
caller instead of resolving to fallback text. -/
theorem claim1_corrected :
    (∀ (w : Profile) (b : Nat → Nat → Option String),
      ∃ l, generatePredictionsRun w (.ok ()) b = .ok l ∧ l.length = 4) ∧
    (∀ (w : Profile) (b : Nat → Option String),
      (∀ k, 1 ≤ k → k ≤ 5 → b k ≠ none) →
      ∃ r, generatePoemRun w (.ok ()) b = .ok r) ∧
    (∀ (w : Profile) (bp : Nat → Option String) (bq : Nat → Nat → Option String),
      generatePoemRun w (.error ()) bp = .error () ∧
      generatePredictionsRun w (.error ()) bq = .error ()) := by
  refine ⟨?_, ?_, ?_⟩
  · intro w b
    refine ⟨predRunAll (predUnits w) b 0, rfl, ?_⟩
    rw [predRunAll_length]
    simp [predUnits]
  · intro w b h
    have hm : ∀ k ∈ retryAttemptNums, b k ≠ none :=
      fun k hk => h k (retry_bounds hk).1 (retry_bounds hk).2
    obtain ⟨r, hr⟩ := poemLoop_no_throw w b retryAttemptNums 0 hm
    exact ⟨r, by simp [generatePoemRun, hr]⟩
  · exact fun w bp bq => ⟨rfl, rfl⟩

/-- C1 counterexample: with a failing backend initialization both functions
return the propagated error, not fallback text, refuting totality with
respect to initialization failure. -/
theorem claim1_counterexample :
    generatePoemRun emptyProfile (.error ()) (fun _ => some "a calm line here") = .error () ∧
    generatePredictionsRun emptyProfile (.error ())
      (fun _ _ => some "a calm line here") = .error () :=
  ⟨rfl, rfl⟩

/-- C1 witness: the poem totality part instantiated at a backend that always
answers (with an invalid response), resolving to fallback. -/
theorem claim1_witness :
    ∃ r, generatePoemRun emptyProfile (.ok ()) (fun _ => some "") = .ok r :=
  claim1_corrected.2.1 emptyProfile (fun _ => some "") (fun _ _ _ => by simp)

/-- C2 (corrected): with a backend whose every response fails validation,
each unit performs exactly 5 attempts and then falls back; the poem's result
is `getFallbackPoem`, but each prediction unit's result is its inline
fallback template from `generatePredictions`, not `getFallbackPredictions`'
output. -/
theorem claim2_corrected :
    (∀ (w : Profile) (b : Nat → Option String),
      (∀ k, 1 ≤ k → k ≤ 5 → ∃ s, b k = some s ∧ processPoemAttempt s = none) →
      generatePoemRun w (.ok ()) b = .ok (getFallbackPoem w, 5)) ∧
    (∀ (start fb : String) (b : Nat → Option String),
      (∀ k, 1 ≤ k → k ≤ 5 → ∃ s, b k = some s ∧ isValidPred (predCompletion s) = false) →
      runPredUnit start fb b = (fb, 5)) ∧
    (∀ (w : Profile) (b : Nat → Nat → Option String),
      (∀ j k, 1 ≤ k → k ≤ 5 → ∃ s, b j k = some s ∧ isValidPred (predCompletion s) = false) →
      generatePredictionsRun w (.ok ()) b = .ok ((predUnits w).map Prod.snd)) := by
  refine ⟨?_, ?_, ?_⟩
  · intro w b h
    have hm : ∀ k ∈ retryAttemptNums, ∃ s, b k = some s ∧ processPoemAttempt s = none :=
      fun k hk => h k (retry_bounds hk).1 (retry_bounds hk).2
    simpa [generatePoemRun, retryAttemptNums] using
      poemLoop_exhaust w b retryAttemptNums 0 hm
  · intro start fb b h
    refine runPredUnit_exhaust b start fb ?_
    intro k hk
    obtain ⟨s, hs, hv⟩ := h k (retry_bounds hk).1 (retry_bounds hk).2
    simp [predAttemptFails, hs, hv]
  · intro w b h
    have hf : ∀ j k, k ∈ retryAttemptNums → predAttemptFails (b j k) = true := by
      intro j k hk
      obtain ⟨s, hs, hv⟩ := h j k (retry_bounds hk).1 (retry_bounds hk).2
      simp [predAttemptFails, hs, hv]
    simp [generatePredictionsRun, predRunAll_exhaust b hf]

/-- C2 counterexample: with an always-invalid backend, the predictions
returned are the inline fallback templates, which differ from
`getFallbackPredictions`' output for the same Profile. -/
theorem claim2_counterexample :
    generatePredictionsRun emptyProfile (.ok ()) (fun _ _ => some "") =
      .ok ["Your learning obsession will reach new heights",
           "As a true Explorer, you'll discover 3 new use cases",
           "\"ideas\" will become your catchphrase",
           "Your creating journey will surprise you"] ∧
    getFallbackPredictions emptyProfile =
      ["Your exploring ideas obsession will reach new heights in 2026",
       "As a true Ranger, you'll discover at least 3 new AI use cases",
       "Your message count will double - 0+ messages incoming",
       "\"curiosity\" will become your catchphrase in creative projects discussions"] ∧
    (("Your learning obsession will reach new heights" : String) ==
      "Your exploring ideas obsession will reach new heights in 2026") = false :=
  ⟨rfl, rfl, by decide⟩

/-- C2 witness: the amended theorem instantiated at the empty Profile and the
backend that always returns the empty response. -/
theorem claim2_witness :
    generatePoemRun emptyProfile (.ok ()) (fun _ => some "") =
      .ok (getFallbackPoem emptyProfile, 5) ∧
    generatePredictionsRun emptyProfile (.ok ()) (fun _ _ => some "") =
      .ok ((predUnits emptyProfile).map Prod.snd) :=
  ⟨claim2_corrected.1 emptyProfile (fun _ => some "") (fun _ _ _ => ⟨"", rfl, by decide⟩),
   claim2_corrected.2.2 emptyProfile (fun _ _ => some "") (fun _ _ _ _ => ⟨"", rfl, by decide⟩)⟩

/-- C3 (corrected): in `generatePredictions` a thrown `generate` call is
caught inside the retry loop and counted — a backend that always throws
exhausts the 5 attempts and yields the unit's fallback, and the function
never escalates once loading succeeded — but in `generatePoem` the `generate`
call is not wrapped in try/catch, so a backend error during any poem attempt
propagates to the caller. -/
theorem claim3_corrected :
    (∀ start fb : String, runPredUnit start fb (fun _ => none) = (fb, 5)) ∧
    (∀ (w : Profile) (b : Nat → Nat → Option String),
      ∃ l, generatePredictionsRun w (.ok ()) b = .ok l) ∧
    (∀ w : Profile, generatePoemRun w (.ok ()) (fun _ => none) = .error ()) :=
  ⟨fun _ _ => rfl, fun _ _ => ⟨_, rfl⟩, fun _ => rfl⟩

/-- C3 counterexample: a backend error during the very first poem attempt
(after successful initialization) escapes the retry loop and reaches the
caller, refuting the claim for the poem unit kind. -/
theorem claim3_counterexample :
    generatePoemRun emptyProfile (.ok ()) (fun _ => none) = .error () := rfl

/-- C4 (corrected): once Ready, `loadModel` returns the cached handle without
re-initializing; but there is no terminal Failed state — an initialization
error is surfaced to the caller and the flags return to the not-loading,
not-ready configuration, from which a subsequent call re-attempts
initialization (and can succeed). -/
theorem claim4_corrected :
    (∀ (st : BackendState) (hdl : Nat) (o : LoadOutcome),
      st.modelReady = true → st.generator = some hdl →
      loadModel st o = (.ok (some hdl), st)) ∧
    (∀ st : BackendState, st.modelReady = false → st.modelLoading = false →
      loadModel st .failure = (.error (), st)) ∧
    (∀ (st : BackendState) (hdl : Nat), st.modelReady = false → st.modelLoading = false →
      loadModel st (.success hdl) = (.ok (some hdl), ⟨some hdl, false, true⟩)) := by
  refine ⟨?_, ?_, ?_⟩
  · intro st hdl o hr hg
    simp [loadModel, hr, hg]
  · intro st hr hl
    cases st with
    | mk g ml mr => simp_all [loadModel]
  · intro st hdl hr hl
    simp [loadModel, hr, hl]

/-- C4 counterexample: from the initial state a failed load surfaces an error
but leaves the state from which a second call re-enters initialization and
succeeds — the Failed state is not terminal and initialization is
re-attempted. -/
theorem claim4_counterexample :
    loadModel ⟨none, false, false⟩ .failure = (.error (), ⟨none, false, false⟩) ∧
    loadModel ⟨none, false, false⟩ (.success 1) = (.ok (some 1), ⟨some 1, false, true⟩) :=
  ⟨rfl, rfl⟩

/-- C4 witness: the amended theorem instantiated at a Ready state and at the
initial state. -/
theorem claim4_witness :
    loadModel ⟨some 2, false, true⟩ .failure = (.ok (some 2), ⟨some 2, false, true⟩) ∧
    loadModel ⟨none, false, false⟩ .failure = (.error (), ⟨none, false, false⟩) ∧
    loadModel ⟨none, false, false⟩ (.success 7) = (.ok (some 7), ⟨some 7, false, true⟩) :=
  ⟨claim4_corrected.1 ⟨some 2, false, true⟩ 2 .failure rfl rfl,
   claim4_corrected.2.1 ⟨none, false, false⟩ rfl rfl,
   claim4_corrected.2.2 ⟨none, false, false⟩ 7 rfl rfl⟩

lemma jsOrStr_empty_right (x : String) : jsOrStr x "" = x := by
  by_cases h : x = "" <;> simp [jsOrStr, h]

lemma countTrigger_iff (ws : List String) :
    countTrigger ws = true ↔
      ∃ w ∈ ws, 3 ≤ w.length ∧ protoKey w = false ∧ 3 ≤ ws.count w := by
  simp [countTrigger, List.any_eq_true, Bool.and_eq_true, decide_eq_true_eq,
    Bool.not_eq_true', and_assoc]

lemma bigramTrigger_iff (ws : List String) :
    bigramTrigger ws = true ↔
      ∃ i < ws.length - 3,
        nthWord ws i ++ " " ++ nthWord ws (i + 1) =
          nthWord ws (i + 2) ++ " " ++ nthWord ws (i + 3) := by
  simp [bigramTrigger, List.any_eq_true, List.mem_range, beq_iff_eq]

/-- C5 (corrected): the normalizer always returns a string; but selection and
unwrapping follow JS truthiness, not mere presence: the assistant entry's
content is used only when non-empty (otherwise the last entry's non-empty
content, otherwise the empty string), and an object with an empty content
field is not unwrapped — it coerces to "[object Object]". -/
theorem claim5_corrected :
    (∀ s : String, normalizeResult (.rstr s) = s) ∧
    (normalizeResult .rnull = "") ∧
    (∀ c : String, c ≠ "" → normalizeResult (.robj c) = c) ∧
    (normalizeResult (.robj "") = "[object Object]") ∧
    (∀ (es : List Entry) (a : Entry),
      es.find? (fun e => e.role == "assistant") = some a → a.content ≠ "" →
      normalizeResult (.rlist es) = a.content) ∧
    (∀ (es : List Entry) (a : Entry),
      es.find? (fun e => e.role == "assistant") = some a → a.content = "" →
      normalizeResult (.rlist es) = (es.getLast?.map fun e => e.content).getD "") ∧
    (∀ es : List Entry, es.find? (fun e => e.role == "assistant") = none →
      normalizeResult (.rlist es) = (es.getLast?.map fun e => e.content).getD "") := by
  refine ⟨?_, rfl, ?_, rfl, ?_, ?_, ?_⟩
  · intro s
    exact jsOrStr_empty_right s
  · intro c h
    simp [normalizeResult, beq_iff_eq, h, jsOrStr_empty_right]
  · intro es a hfind hne
    simp [normalizeResult, hfind, jsOrStr_empty_right, jsOrStr, hne]
  · intro es a hfind he
    simp [normalizeResult, hfind, jsOrStr_empty_right, he, jsOrStr]
    by_cases hx : (es.getLast?.map fun e => e.content).getD "" = "" <;> simp [hx]
  · intro es hfind
    simp [normalizeResult, hfind, jsOrStr_empty_right, jsOrStr]
    by_cases hx : (es.getLast?.map fun e => e.content).getD "" = "" <;> simp [hx]

/-- C5 counterexample: an assistant-tagged entry with empty content is
skipped in favor of the last entry's content (the claim requires the tagged
entry's content), and an object with an empty content field is not unwrapped
to a string but coerced. -/
theorem claim5_counterexample :
    normalizeResult (.rlist [⟨"assistant", ""⟩, ⟨"user", "Z"⟩]) = "Z" ∧
    normalizeResult (.robj "") = "[object Object]" :=
  ⟨rfl, rfl⟩

/-- C5 witness: the list case at the spec's own example. -/
theorem claim5_witness :
    normalizeResult (.rlist [⟨"user", "hi"⟩, ⟨"assistant", "X"⟩]) = "X" :=
  claim5_corrected.2.2.2.2.1 [⟨"user", "hi"⟩, ⟨"assistant", "X"⟩] ⟨"assistant", "X"⟩
    (by decide) (by decide)

/-- C6 (corrected): the poem validator rejects a run of four or more equal
characters, but the prediction validator's regex uses `{4,}` repetitions of
the back-reference and therefore rejects only runs of five or more. -/
theorem claim6_corrected :
    (∀ l : String, hasDotRun 4 l = true → poemGibberish l = true) ∧
    (∀ c : String, hasDotRun 5 c = true → isValidPred c = false) := by
  constructor
  · intro l h
    simp [poemGibberish, h]
  · intro c h
    simp [isValidPred, h]

/-- C6 counterexample: a prediction candidate containing a run of exactly
four identical characters passes the prediction validator, refuting the
claim that both unit kinds reject runs of four or more. -/
theorem claim6_counterexample :
    hasDotRun 4 "nice aaaa good day" = true ∧
    isValidPred "nice aaaa good day" = true :=
  ⟨by decide, by decide⟩

/-- C6 witness: a four-run line is poem-gibberish, and a five-run completion
is rejected by the prediction validator. -/
theorem claim6_witness :
    poemGibberish "aaaa" = true ∧ isValidPred "aaaaa" = false :=
  ⟨claim6_corrected.1 "aaaa" (by decide), claim6_corrected.2 "aaaaa" (by decide)⟩

/-- C7 (corrected): `hasWordRepetition` lowercases and tokenizes on
whitespace and returns false outright for fewer than 4 tokens; otherwise it
reports repetition exactly when some token of length at least 3 — other than
the Object-prototype collision keys, whose plain-object counter never holds a
number — occurs 3 or more times, or two adjacent two-token windows render
identically. -/
theorem claim7_corrected (text : String) :
    hasWordRepetition text = true ↔
      (4 ≤ (jsSplitWS (jsToLower text)).length ∧
        ((∃ w ∈ jsSplitWS (jsToLower text), 3 ≤ w.length ∧ protoKey w = false ∧
            3 ≤ (jsSplitWS (jsToLower text)).count w) ∨
         (∃ i < (jsSplitWS (jsToLower text)).length - 3,
            nthWord (jsSplitWS (jsToLower text)) i ++ " " ++
              nthWord (jsSplitWS (jsToLower text)) (i + 1) =
            nthWord (jsSplitWS (jsToLower text)) (i + 2) ++ " " ++
              nthWord (jsSplitWS (jsToLower text)) (i + 3)))) := by
  show (if (jsSplitWS (jsToLower text)).length < 4 then false
        else countTrigger (jsSplitWS (jsToLower text)) ||
          bigramTrigger (jsSplitWS (jsToLower text))) = true ↔ _
  by_cases h4 : (jsSplitWS (jsToLower text)).length < 4
  · rw [if_pos h4]
    constructor
    · intro h
      exact absurd h (by simp)
    · rintro ⟨h5, -⟩
      omega
  · rw [if_neg h4, Bool.or_eq_true, countTrigger_iff, bigramTrigger_iff]
    constructor
    · intro h
      exact ⟨by omega, h⟩
    · rintro ⟨-, h⟩
      exact h

/-- C7 counterexample: a token of length 3 occurring 3 times in a 3-token
text is not reported, because of the early return for fewer than 4 tokens. -/
theorem claim7_counterexample :
    hasWordRepetition "aaa aaa aaa" = false ∧
    (jsSplitWS (jsToLower "aaa aaa aaa")).count "aaa" = 3 ∧
    ("aaa" : String).length = 3 :=
  ⟨by decide, by decide, by decide⟩

/-- C8 (confirmed): the fallback synthesizers embed as pure functions of the
Profile — the source reads only the Profile fields, with no randomness or
mutable state — so repeated calls on the same Profile agree. -/
theorem claim8_confirmed :
    ∀ w : Profile, getFallbackPoem w = getFallbackPoem w ∧
      getFallbackPredictions w = getFallbackPredictions w :=
  fun _ => ⟨rfl, rfl⟩

/-- C9 (corrected): both synthesizers return non-empty bounded results for
every Profile — the poem's length is 51 plus the three substituted fields,
and there are always exactly 4 non-empty predictions — and for the all-empty
Profile the substituted literal defaults are "exploring ideas", "creative
projects", "Ranger", "curiosity", "ideas", "seeker"→"Seeker" and
"wonder"→"Wonder"; "learning" is not among them. -/
theorem claim9_corrected :
    getFallbackPoem emptyProfile =
      "Seeker of ideas\nWonder guides the path forward\nClaude lights the way" ∧
    getFallbackPredictions emptyProfile =
      ["Your exploring ideas obsession will reach new heights in 2026",
       "As a true Ranger, you'll discover at least 3 new AI use cases",
       "Your message count will double - 0+ messages incoming",
       "\"curiosity\" will become your catchphrase in creative projects discussions"] ∧
    (∀ w : Profile,
      (getFallbackPoem w).length =
        (fbPoemStyle w).length + (fbPoemTheme w).length + (fbPoemWord w).length + 51 ∧
      51 ≤ (getFallbackPoem w).length) ∧
    (∀ w : Profile, ∃ a b c d : String,
      getFallbackPredictions w = [a, b, c, d] ∧
      1 ≤ a.length ∧ 1 ≤ b.length ∧ 1 ≤ c.length ∧ 1 ≤ d.length) := by
  refine ⟨rfl, rfl, ?_, ?_⟩
  · intro w
    have h1 : String.length " of " = 4 := rfl
    have h2 : String.length "\n" = 1 := rfl
    have h3 : String.length " guides the path forward\nClaude lights the way" = 46 := rfl
    have h : (getFallbackPoem w).length =
        (fbPoemStyle w).length + (fbPoemTheme w).length + (fbPoemWord w).length + 51 := by
      simp [getFallbackPoem, String.length_append, capFirst_length, h1, h2, h3]
      omega
    exact ⟨h, by omega⟩
  · intro w
    refine ⟨_, _, _, _, rfl, ?_, ?_, ?_, ?_⟩
    · have hl : String.length "Your " = 5 := rfl
      simp [String.length_append, hl]
      omega
    · have hl : String.length "As a true " = 10 := rfl
      simp [String.length_append, hl]
      omega
    · have hl : String.length "Your message count will double - " = 33 := rfl
      simp [String.length_append, hl]
      omega
    · have hl : String.length "\"" = 1 := rfl
      simp [String.length_append, hl]
      omega

/-- C9 counterexample: the literal "learning" appears in none of the
fallback outputs for the all-empty Profile — it is a default of the
generation prompts, not of the fallback synthesizer. -/
theorem claim9_counterexample :
    containsStr (getFallbackPoem emptyProfile) "learning" = false ∧
    ((getFallbackPredictions emptyProfile).all fun s =>
      !containsStr s "learning") = true :=
  ⟨by decide, by decide⟩

/-- C10 (confirmed): an accepted prediction equals its anchoring stem, one
space, and the validated completion, where the completion is the trimmed
first line of the normalized response with a leading arrow stripped; in
particular the 5–80 character bound constrains the completion alone, while
the returned string's length is the stem's length plus one plus the
completion's length. -/
theorem claim10_confirmed (start s out : String)
    (h : predAttempt start (some s) = some out) :
    out = start ++ " " ++ predCompletion s ∧
    isValidPred (predCompletion s) = true ∧
    5 ≤ (predCompletion s).length ∧ (predCompletion s).length ≤ 80 ∧
    out.length = start.length + 1 + (predCompletion s).length := by
  by_cases hv : isValidPred (predCompletion s) = true
  · simp only [predAttempt, hv, if_true, Option.some.injEq] at h
    have hb := hv
    simp only [isValidPred, Bool.and_eq_true, decide_eq_true_eq] at hb
    obtain ⟨⟨⟨⟨⟨⟨⟨⟨⟨hc5, hc80⟩, -⟩, -⟩, -⟩, -⟩, -⟩, -⟩, -⟩, -⟩ := hb
    have hlen : (start ++ " " ++ predCompletion s).length =
        start.length + 1 + (predCompletion s).length := by
      have hsp : String.length " " = 1 := rfl
      simp [String.length_append, hsp]
    exact ⟨h.symm, hv, hc5, hc80, h.symm ▸ hlen⟩
  · simp only [predAttempt] at h
    rw [if_neg hv] at h
    cases h

/-- C10 witness: the first prediction stem with a typical arrow-prefixed
response. -/
theorem claim10_witness :
    "In 2026, your learning skills will unlock new creative possibilities" =
      "In 2026, your learning skills will" ++ " " ++
        predCompletion "→ unlock new creative possibilities" ∧
    isValidPred (predCompletion "→ unlock new creative possibilities") = true ∧
    5 ≤ (predCompletion "→ unlock new creative possibilities").length ∧
    (predCompletion "→ unlock new creative possibilities").length ≤ 80 ∧
    ("In 2026, your learning skills will unlock new creative possibilities" : String).length =
      ("In 2026, your learning skills will" : String).length + 1 +
        (predCompletion "→ unlock new creative possibilities").length :=
  claim10_confirmed "In 2026, your learning skills will"
    "→ unlock new creative possibilities"
    "In 2026, your learning skills will unlock new creative possibilities" (by decide)

end ClaudeWrapped
